import Mathlib

/-!
Verification development for the Atlassian MCP server
(`src/atlassian-server.py`): a shallow embedding of the JSON values the
program manipulates, of the Python-level operations it performs on them
(attribute access, subscripting, iteration, truthiness, string joining),
and of the program functions themselves, followed by theorems about the
claims of the specification.

HTTP I/O is modelled by oracles: a Jira transport `String → Option Json`
(endpoint to optional JSON response) and a Confluence transport
`Req → Option Json` (full request record to optional JSON response),
matching the code where every transport failure is downgraded to `None`.
A state monad threads the list of HTTP requests actually issued, and an
`Except` layer models Python exceptions that the code may raise or catch.
-/

/-- JSON values, the data the program manipulates.  Objects are ordered
association lists (Python dicts preserve insertion order). -/
inductive Json where
  | null : Json
  | bool : Bool → Json
  | num : Int → Json
  | str : String → Json
  | arr : List Json → Json
  | obj : List (String × Json) → Json
deriving Repr, Inhabited

/-- Python truthiness: `None`, `False`, `0`, `""`, `[]`, `{}` are falsy. -/
def Json.falsy : Json → Bool
  | .null => true
  | .bool b => !b
  | .num n => n == 0
  | .str s => s == ""
  | .arr xs => xs.isEmpty
  | .obj fs => fs.isEmpty

/-- Python truthiness, positive form. -/
def Json.truthy (j : Json) : Bool := !j.falsy

/-- The Python exceptions this program can raise on plain JSON data:
`AttributeError` (`.get` on a non-dict), `KeyError` (subscript of a dict
missing the key), `TypeError` (iterating or adding the wrong kind of
value, joining non-strings), `IndexError` (subscript past the end of a
list). -/
inductive PyError where
  | attributeError : PyError
  | keyError : PyError
  | typeError : PyError
  | indexError : PyError
deriving Repr, DecidableEq
mutual

/-- Python `repr` of a JSON value, as used by `str` on containers. -/
def Json.pyRepr : Json → String
  | .null => "None"
  | .bool true => "True"
  | .bool false => "False"
  | .num n => toString n
  | .str s => "\x27" ++ s ++ "\x27"
  | .arr xs => "[" ++ Json.reprList xs ++ "]"
  | .obj fs => "\x7b" ++ Json.reprFields fs ++ "\x7d"

/-- Comma-separated `repr`s of list elements. -/
def Json.reprList : List Json → String
  | [] => ""
  | [x] => x.pyRepr
  | x :: y :: xs => x.pyRepr ++ ", " ++ Json.reprList (y :: xs)

/-- Comma-separated `repr`s of dict entries. -/
def Json.reprFields : List (String × Json) → String
  | [] => ""
  | [(k, v)] => "\x27" ++ k ++ "\x27: " ++ v.pyRepr
  | (k, v) :: f :: fs =>
      "\x27" ++ k ++ "\x27: " ++ v.pyRepr ++ ", " ++ Json.reprFields (f :: fs)

end

/-- Python `str()` of a JSON value (as used in f-strings): identity on
strings, `repr`-like on everything else. -/
def Json.pyStr : Json → String
  | .str s => s
  | j => j.pyRepr

/-- Python `d.get(key)` with default `None`: succeeds only on dicts
(`AttributeError` otherwise), yielding the first binding of `key` or
`None` when absent. -/
def pyGet (j : Json) (key : String) : Except PyError Json :=
  match j with
  | .obj fs => .ok (((fs.lookup key).getD .null))
  | _ => .error .attributeError

/-- Python `d.get(key, default)`. -/
def pyGetD (j : Json) (key : String) (default : Json) : Except PyError Json :=
  match j with
  | .obj fs => .ok ((fs.lookup key).getD default)
  | _ => .error .attributeError

/-- Python `d[key]` for a string key: `KeyError` when a dict lacks the
key, `TypeError` on every non-dict. -/
def pySubscript (j : Json) (key : String) : Except PyError Json :=
  match j with
  | .obj fs =>
      match fs.lookup key with
      | some v => .ok v
      | none => .error .keyError
  | _ => .error .typeError

/-- Python `x[0]`: first element of a list or string, `IndexError` when
empty, `KeyError` on a dict (whose keys are strings), `TypeError`
otherwise. -/
def pyIndex0 (j : Json) : Except PyError Json :=
  match j with
  | .arr (x :: _) => .ok x
  | .arr [] => .error .indexError
  | .str s =>
      match s.data with
      | c :: _ => .ok (.str (String.mk [c]))
      | [] => .error .indexError
  | .obj _ => .error .keyError
  | _ => .error .typeError

/-- Python iteration `for x in j`: lists yield elements, strings yield
one-character strings, dicts yield their keys, everything else raises
`TypeError`. -/
def pyIter (j : Json) : Except PyError (List Json) :=
  match j with
  | .arr xs => .ok xs
  | .str s => .ok (s.data.map fun c => .str (String.mk [c]))
  | .obj fs => .ok (fs.map fun f => .str f.1)
  | _ => .error .typeError

/-- Python `x + 1`: arithmetic on numbers (and booleans, which are
numeric), `TypeError` otherwise. -/
def pyAdd1 (j : Json) : Except PyError Json :=
  match j with
  | .num n => .ok (.num (n + 1))
  | .bool b => .ok (.num (if b then 2 else 1))
  | _ => .error .typeError

/-- Naive substring test, modelling Python `needle in haystack` on
strings. -/
def strContains (needle haystack : String) : Bool :=
  (List.range (haystack.data.length + 1)).any fun i =>
    List.isPrefixOf needle.data (haystack.data.drop i)

/-- Python `key in j` for a string operand: key membership in a dict,
element membership in a list, substring test in a string, `TypeError`
otherwise. -/
def pyContains (j : Json) (key : String) : Except PyError Bool :=
  match j with
  | .obj fs => .ok ((fs.lookup key).isSome)
  | .arr xs => .ok (xs.any fun x =>
      match x with
      | .str s => s == key
      | _ => false)
  | .str s => .ok (strContains key s)
  | _ => .error .typeError

/-- Python `sep.join(parts)` requires every part to be a string. -/
def pyStrList : List Json → Except PyError (List String)
  | [] => .ok []
  | .str s :: rest => (pyStrList rest).map fun ss => s :: ss
  | _ :: _ => .error .typeError

/-- Join a list of strings with a separator, Python `sep.join` style. -/
def pyJoinList (sep : String) : List String → String
  | [] => ""
  | [s] => s
  | s :: t :: rest => s ++ sep ++ pyJoinList sep (t :: rest)

/-- Python equality of a JSON value against a string literal (numbers and
booleans never equal a string). -/
def jsonEqStr (j : Json) (s : String) : Bool :=
  match j with
  | .str t => t == s
  | _ => false

/-- Python `str.upper()` (the program only uppercases ASCII method
names). -/
def pyUpper (s : String) : String := String.mk (s.data.map Char.toUpper)

/-- Which remote service an HTTP request targets. -/
inductive Service where
  | jira : Service
  | confluence : Service
deriving Repr, DecidableEq

/-- One outbound HTTP request: service, method (already uppercased),
endpoint path, and JSON payload (query parameters for GET, body for
POST/PUT; `null` for the Jira GETs, which carry no payload). -/
structure Req where
  service : Service
  method : String
  endpoint : String
  payload : Json
deriving Repr

/-- The effect monad of the embedding: a log of issued HTTP requests
threaded through the computation, and Python exceptions.  The log is
kept on the error path too: requests already sent stay sent when an
exception is raised afterwards. -/
def M (α : Type) : Type := List Req → Except PyError α × List Req

/-- Return a pure value, leaving the log unchanged. -/
def M.pure (a : α) : M α := fun σ => (.ok a, σ)

/-- Sequence two effectful steps, short-circuiting on an exception. -/
def M.bind (x : M α) (f : α → M β) : M β := fun σ =>
  match x σ with
  | (.ok a, σ₁) => f a σ₁
  | (.error e, σ₁) => (.error e, σ₁)
instance : Monad M where
  pure := M.pure
  bind := M.bind

/-- Record one issued HTTP request. -/
def M.log (r : Req) : M Unit := fun σ => (.ok (), σ ++ [r])

/-- Run a pure, possibly-raising Python step inside `M`. -/
def M.lift (e : Except PyError α) : M α := fun σ => (e, σ)

/-- `make_jira_request(endpoint)` (src lines 148-174): records one
authenticated GET to the Jira service and yields whatever the transport
oracle answers; every transport failure is already `none`. -/
def make_jira_request (jt : String → Option Json) (endpoint : String) :
    M (Option Json) := do
  M.log ⟨.jira, "GET", endpoint, .null⟩
  Pure.pure (jt endpoint)

/-- `make_confluence_request(endpoint, payload, method)` (src lines
176-219): on GET/POST/PUT (case-insensitive) it records the request and
yields the transport oracle's answer; on any other method the
`ValueError` raised inside the function body is caught by its own
`except Exception` handler, so no request is recorded and the result is
`none`, exactly like a transport failure. -/
def make_confluence_request (ct : Req → Option Json) (endpoint : String)
    (payload : Json) (method : String) : M (Option Json) :=
  let mu := pyUpper method
  if mu = "POST" ∨ mu = "PUT" ∨ mu = "GET" then do
    M.log ⟨.confluence, mu, endpoint, payload⟩
    Pure.pure (ct ⟨.confluence, mu, endpoint, payload⟩)
  else
    Pure.pure none

/-- The sentinel of the text extractor. -/
def noDescription : String := "No description available"

/-- The inner loop of `extract_description_from_jira` over the inline
nodes of one paragraph: collect `text` fields of nodes whose `type` is
`"text"`, skipping falsy texts, raising `AttributeError` on non-dict
nodes exactly as Python `.get` does. -/
def collectInline : List Json → Except PyError (List Json)
  | [] => .ok []
  | ti :: rest => do
    let ty ← pyGet ti "type"
    if jsonEqStr ty "text" then do
      let tx ← pyGetD ti "text" (.str "")
      let rs ← collectInline rest
      .ok (if tx.truthy then tx :: rs else rs)
    else
      collectInline rest

/-- The outer loop of `extract_description_from_jira` over block nodes:
descend into blocks whose `type` is `"paragraph"`, iterating their
`content` (default `[]`), skipping every other block. -/
def collectBlocks : List Json → Except PyError (List Json)
  | [] => .ok []
  | item :: rest => do
    let ty ← pyGet item "type"
    if jsonEqStr ty "paragraph" then do
      let pc ← pyGetD item "content" (.arr [])
      let inls ← pyIter pc
      let ps ← collectInline inls
      let rs ← collectBlocks rest
      .ok (ps ++ rs)
    else
      collectBlocks rest

/-- The `try` body of `extract_description_from_jira` (src lines
103-119): read `content` (default `[]`), return the sentinel when it is
falsy, otherwise traverse it and either join the collected parts with
single spaces or return the sentinel when none were collected.  The
join raises `TypeError` when a collected part is not a string. -/
def extractDescCore (d : Json) : Except PyError String := do
  let content ← pyGetD d "content" (.arr [])
  if content.falsy then
    .ok noDescription
  else do
    let items ← pyIter content
    let parts ← collectBlocks items
    if parts.isEmpty then
      .ok noDescription
    else do
      let ss ← pyStrList parts
      .ok (pyJoinList " " ss)

/-- `extract_description_from_jira(description_field)` (src lines
87-123): sentinel on a falsy document, otherwise the `try` body with
`AttributeError`/`KeyError`/`TypeError` caught and degraded to the
sentinel.  (Those three are the only exceptions the body can raise on
JSON data, so the catch is total.) -/
def extract_description_from_jira (d : Json) : String :=
  if d.falsy then noDescription
  else
    match extractDescCore d with
    | .ok s => s
    | .error _ => noDescription

/-- `extract_jira_field_value(field_data, field_name)` (src lines
125-142): `"Unknown"` on a falsy value, `field_data.get(field_name,
"Unknown")` on a dict, and `str(field_data)` on any other (necessarily
truthy) value — the final falsy guard of the source is kept although it
is unreachable. -/
def extract_jira_field_value (fd : Json) (name : String) : Json :=
  if fd.falsy then .str "Unknown"
  else
    match fd with
    | .obj fs => (fs.lookup name).getD (.str "Unknown")
    | _ => if fd.truthy then .str fd.pyStr else .str "Unknown"

/-- `fetch_jira_issue_details(issue_key)` (src lines 225-251): GET the
issue; `None` (or a falsy body) yields `none`; otherwise build the
issue dict from `fields` with the defensive extractors.  Reading a
field off a non-dict `fields` raises, and the raise propagates to the
caller (this helper has no handler of its own). -/
def fetch_jira_issue_details (jt : String → Option Json) (issue_key : String) :
    M (Option Json) := do
  let data? ← make_jira_request jt ("/rest/api/3/issue/" ++ issue_key)
  match data? with
  | none => Pure.pure none
  | some data =>
    if data.falsy then Pure.pure none
    else do
      let fields ← M.lift (pyGetD data "fields" (.obj []))
      let summary ← M.lift (pyGetD fields "summary" (.str "No summary"))
      let status ← M.lift (pyGet fields "status")
      let reporter ← M.lift (pyGet fields "reporter")
      let assignee ← M.lift (pyGet fields "assignee")
      let priority ← M.lift (pyGet fields "priority")
      let issuetype ← M.lift (pyGet fields "issuetype")
      let descr ← M.lift (pyGet fields "description")
      let subtasks ← M.lift (pyGetD fields "subtasks" (.arr []))
      Pure.pure (some (.obj [
        ("key", .str issue_key),
        ("summary", summary),
        ("status", extract_jira_field_value status "name"),
        ("reporter", extract_jira_field_value reporter "displayName"),
        ("assignee", extract_jira_field_value assignee "displayName"),
        ("priority", extract_jira_field_value priority "name"),
        ("issue_type", extract_jira_field_value issuetype "name"),
        ("description", .str (extract_description_from_jira descr)),
        ("subtasks", subtasks)]))

/-- `fetch_subtask_details(subtask_data)` (src lines 253-279): read the
sub-issue key (raising on a non-dict reference, as `.get` does); with a
falsy key return the keyless error marker; otherwise GET the sub-issue
and return either the error-marker record or the full record. -/
def fetch_subtask_details (jt : String → Option Json) (subtask_data : Json) :
    M Json := do
  let subKey ← M.lift (pyGet subtask_data "key")
  if subKey.falsy then
    Pure.pure (.obj [("error", .str "No subtask key found")])
  else do
    let sd? ← make_jira_request jt ("/rest/api/3/issue/" ++ subKey.pyStr)
    match sd? with
    | none =>
      Pure.pure (.obj [("key", subKey),
        ("error", .str "Unable to fetch subtask details")])
    | some sd =>
      if sd.falsy then
        Pure.pure (.obj [("key", subKey),
          ("error", .str "Unable to fetch subtask details")])
      else do
        let sf ← M.lift (pyGetD sd "fields" (.obj []))
        let summary ← M.lift (pyGetD sf "summary" (.str "No summary"))
        let status ← M.lift (pyGet sf "status")
        let reporter ← M.lift (pyGet sf "reporter")
        let descr ← M.lift (pyGet sf "description")
        Pure.pure (.obj [
          ("key", subKey),
          ("summary", summary),
          ("status", extract_jira_field_value status "name"),
          ("reporter", extract_jira_field_value reporter "displayName"),
          ("description", .str (extract_description_from_jira descr))])

/-- One iteration of the subtask loop of `format_jira_issue_output`
(src lines 300-311): the error-marker rendering when `"error"` is a key
of the record, the full rendering otherwise. -/
def render_subtask (sub : Json) : Except PyError String := do
  let hasErr ← pyContains sub "error"
  if hasErr then do
    let k ← pyGetD sub "key" (.str "Unknown")
    let e ← pySubscript sub "error"
    .ok ("\n  - " ++ k.pyStr ++ ": " ++ e.pyStr ++ "\n")
  else do
    let k ← pySubscript sub "key"
    let s ← pySubscript sub "summary"
    let st ← pySubscript sub "status"
    let r ← pySubscript sub "reporter"
    let d ← pySubscript sub "description"
    .ok ("\n  - " ++ k.pyStr ++ ": " ++ s.pyStr ++
      "\n    Status: " ++ st.pyStr ++
      "\n    Reporter: " ++ r.pyStr ++
      "\n    Description: " ++ d.pyStr ++ "\n")

/-- The subtask loop of `format_jira_issue_output`, concatenating one
rendering per record in order. -/
def render_subtask_list : List Json → Except PyError String
  | [] => .ok ""
  | sub :: rest => do
    let s ← render_subtask sub
    let r ← render_subtask_list rest
    .ok (s ++ r)

/-- `format_jira_issue_output(issue_details, subtask_details)` (src
lines 281-315): the fixed header from the issue record, then either one
sub-section per subtask record or the literal no-subtasks line. -/
def format_jira_issue_output (issue : Json) (subs : List Json) :
    Except PyError String := do
  let key ← pySubscript issue "key"
  let summary ← pySubscript issue "summary"
  let status ← pySubscript issue "status"
  let reporter ← pySubscript issue "reporter"
  let descr ← pySubscript issue "description"
  let header := "\nJira Ticket: " ++ key.pyStr ++
    "\nSummary: " ++ summary.pyStr ++
    "\nStatus: " ++ status.pyStr ++
    "\nReporter: " ++ reporter.pyStr ++
    "\nDescription: " ++ descr.pyStr ++ "\n"
  match subs with
  | [] => .ok (header ++ "\nNo child stories or subtasks found.\n")
  | _ :: _ => do
    let body ← render_subtask_list subs
    .ok (header ++ "\nChild Stories/Subtasks:\n" ++ body)

/-- `find_existing_confluence_page(space_key, title)` (src lines
321-343): GET-search by title and space with `expand=version`; when the
answer is truthy and its `results` entry is truthy, yield the first
result, else `none`. -/
def find_existing_confluence_page (ct : Req → Option Json)
    (space_key title : String) : M (Option Json) := do
  let sd? ← make_confluence_request ct "/rest/api/content"
    (.obj [("title", .str title), ("spaceKey", .str space_key),
      ("expand", .str "version")]) "GET"
  match sd? with
  | none => Pure.pure none
  | some sd =>
    if sd.falsy then Pure.pure none
    else do
      let res ← M.lift (pyGet sd "results")
      if res.falsy then Pure.pure none
      else do
        let rs ← M.lift (pySubscript sd "results")
        let first ← M.lift (pyIndex0 rs)
        Pure.pure (some first)

/-- `create_new_confluence_page(space_key, title, content)` (src lines
345-373): POST the fixed creation payload. -/
def create_new_confluence_page (ct : Req → Option Json)
    (space_key title content : String) : M (Option Json) :=
  make_confluence_request ct "/rest/api/content/"
    (.obj [("type", .str "page"), ("title", .str title),
      ("space", .obj [("key", .str space_key)]),
      ("body", .obj [("storage", .obj [("value", .str content),
        ("representation", .str "storage")])])]) "POST"

/-- `update_existing_confluence_page(page_id, space_key, title, content,
current_version)` (src lines 375-411): PUT the update payload whose
`version.number` is `current_version + 1` (raising `TypeError` when the
looked-up version is not numeric, as Python `+` does). -/
def update_existing_confluence_page (ct : Req → Option Json)
    (page_id : Json) (space_key title content : String)
    (current_version : Json) : M (Option Json) := do
  let v1 ← M.lift (pyAdd1 current_version)
  make_confluence_request ct ("/rest/api/content/" ++ page_id.pyStr)
    (.obj [("id", page_id), ("type", .str "page"), ("title", .str title),
      ("space", .obj [("key", .str space_key)]),
      ("body", .obj [("storage", .obj [("value", .str content),
        ("representation", .str "storage")])]),
      ("version", .obj [("number", v1)])]) "PUT"

/-- `extract_page_url(response_data)` (src lines 413-426): concatenate
the `base` and `webui` link fragments (defaults empty). -/
def extract_page_url (rd : Json) : Except PyError String := do
  let links ← pyGetD rd "_links" (.obj [])
  let base ← pyGetD links "base" (.str "")
  let webui ← pyGetD links "webui" (.str "")
  .ok (base.pyStr ++ webui.pyStr)

/-- The subtask loop of `get_jira_ticket` (src lines 458-461):
sequential fetches, in declared order. -/
def fetch_all_subtasks (jt : String → Option Json) :
    List Json → M (List Json)
  | [] => Pure.pure []
  | s :: rest => do
    let d ← fetch_subtask_details jt s
    let ds ← fetch_all_subtasks jt rest
    Pure.pure (d :: ds)

/-- `get_jira_ticket(issue_key)` (src lines 436-464).  Note what the
source does NOT contain: no argument validation and no `try`/`except`,
so the result is still an `Except` — an exception raised in the body
propagates to the hosting framework. -/
def get_jira_ticket (jt : String → Option Json) (issue_key : String) :
    Except PyError String × List Req :=
  (do
    let details? ← fetch_jira_issue_details jt issue_key
    match details? with
    | none =>
      Pure.pure ("Unable to fetch Jira ticket " ++ issue_key ++ ".")
    | some details =>
      if details.falsy then
        Pure.pure ("Unable to fetch Jira ticket " ++ issue_key ++ ".")
      else do
        let subsJson ← M.lift (pyGetD details "subtasks" (.arr []))
        let subItems ← M.lift (pyIter subsJson)
        let subDetails ← fetch_all_subtasks jt subItems
        M.lift (format_jira_issue_output details subDetails) : M String) []

/-- A fixed rendering of `str(e)` for each exception class; the claims
never depend on the exact Python message text. -/
def pyErrStr : PyError → String
  | .attributeError => "AttributeError"
  | .keyError => "KeyError"
  | .typeError => "TypeError"
  | .indexError => "IndexError"

/-- The `try` body of `create_confluence_page` (src lines 488-500):
validate the three arguments (Python `all` on strings is non-emptiness),
create, and render success or failure. -/
def create_confluence_page_run (ct : Req → Option Json)
    (space_key title body : String) : M String := do
  if space_key = "" ∨ title = "" ∨ body = "" then
    Pure.pure "Error: space_key, title, and body are all required"
  else do
    let rd? ← create_new_confluence_page ct space_key title body
    match rd? with
    | none => Pure.pure "Failed to create page: API request failed"
    | some rd =>
      if rd.falsy then
        Pure.pure "Failed to create page: API request failed"
      else do
        let url ← M.lift (extract_page_url rd)
        Pure.pure ("Page created successfully: " ++ url)

/-- `create_confluence_page(space_key, title, body)` (src lines
466-503): the body above wrapped in the `except Exception` handler that
turns any exception into a textual error message. -/
def create_confluence_page (ct : Req → Option Json)
    (space_key title body : String) : String × List Req :=
  match create_confluence_page_run ct space_key title body [] with
  | (.ok s, σ) => (s, σ)
  | (.error e, σ) => ("Error creating page: " ++ pyErrStr e, σ)

/-- The create branch of `create_test_plan_from_jira` (src lines
567-579). -/
def create_test_plan_create_branch (ct : Req → Option Json)
    (space_key title plan : String) : M String := do
  let rd? ← create_new_confluence_page ct space_key title plan
  match rd? with
  | none => Pure.pure "Failed to create new test plan page"
  | some rd =>
    if rd.falsy then
      Pure.pure "Failed to create new test plan page"
    else do
      let url ← M.lift (extract_page_url rd)
      Pure.pure ("Test plan page created successfully: " ++ url)

/-- The `try` body of `create_test_plan_from_jira` (src lines 534-579):
validate the four arguments, fetch the Jira issue for validation only
(its `summary` is read for a debug line, nothing else is used), then
look the page up and either update it at looked-up-version + 1 or
create it. -/
def create_test_plan_from_jira_run (jt : String → Option Json)
    (ct : Req → Option Json)
    (issue_key space_key title plan : String) : M String := do
  if issue_key = "" ∨ space_key = "" ∨ title = "" ∨ plan = "" then
    Pure.pure ("Error: All parameters (issue_key, confluence_space_key, " ++
      "confluence_title, test_plan) are required")
  else do
    let issue? ← fetch_jira_issue_details jt issue_key
    match issue? with
    | none =>
      Pure.pure ("Unable to fetch Jira ticket " ++ issue_key ++
        " for validation.")
    | some issue =>
      if issue.falsy then
        Pure.pure ("Unable to fetch Jira ticket " ++ issue_key ++
          " for validation.")
      else do
        let _ ← M.lift (pySubscript issue "summary")
        let existing? ← find_existing_confluence_page ct space_key title
        match existing? with
        | none => create_test_plan_create_branch ct space_key title plan
        | some page =>
          if page.falsy then
            create_test_plan_create_branch ct space_key title plan
          else do
            let pid ← M.lift (pySubscript page "id")
            let ver ← M.lift (pySubscript page "version")
            let vnum ← M.lift (pySubscript ver "number")
            let rd? ← update_existing_confluence_page ct pid space_key
              title plan vnum
            match rd? with
            | none => Pure.pure "Failed to update existing test plan page"
            | some rd =>
              if rd.falsy then
                Pure.pure "Failed to update existing test plan page"
              else do
                let url ← M.lift (extract_page_url rd)
                Pure.pure ("Test plan page updated successfully: " ++ url)

/-- `create_test_plan_from_jira(issue_key, confluence_space_key,
confluence_title, test_plan)` (src lines 505-585): the body above
wrapped in the `except Exception` handler. -/
def create_test_plan_from_jira (jt : String → Option Json)
    (ct : Req → Option Json)
    (issue_key space_key title plan : String) : String × List Req :=
  match create_test_plan_from_jira_run jt ct issue_key space_key title plan []
  with
  | (.ok s, σ) => (s, σ)
  | (.error e, σ) =>
    ("Error creating or updating test plan page: " ++ pyErrStr e, σ)

/-- The Jira issue GET the program issues for `issue_key`. -/
def jiraIssueReq (issue_key : String) : Req :=
  ⟨.jira, "GET", "/rest/api/3/issue/" ++ issue_key, .null⟩

/-- The Confluence GET-search request for a title in a space. -/
def searchReq (space_key title : String) : Req :=
  ⟨.confluence, "GET", "/rest/api/content",
    .obj [("title", .str title), ("spaceKey", .str space_key),
      ("expand", .str "version")]⟩

/-- The Confluence POST creation request. -/
def createReq (space_key title content : String) : Req :=
  ⟨.confluence, "POST", "/rest/api/content/",
    .obj [("type", .str "page"), ("title", .str title),
      ("space", .obj [("key", .str space_key)]),
      ("body", .obj [("storage", .obj [("value", .str content),
        ("representation", .str "storage")])])]⟩

/-- The Confluence PUT update request, with the version number the
program computed. -/
def updateReq (page_id : Json) (space_key title content : String)
    (v1 : Json) : Req :=
  ⟨.confluence, "PUT", "/rest/api/content/" ++ page_id.pyStr,
    .obj [("id", page_id), ("type", .str "page"), ("title", .str title),
      ("space", .obj [("key", .str space_key)]),
      ("body", .obj [("storage", .obj [("value", .str content),
        ("representation", .str "storage")])]),
      ("version", .obj [("number", v1)])]⟩

/-- The issue record `fetch_jira_issue_details` builds when the Jira
response is `{"fields": {"subtasks": subs}}`: every defensively read
field falls back to its default. -/
def stdIssue (issue_key : String) (subs : List Json) : Json :=
  .obj [("key", .str issue_key),
    ("summary", .str "No summary"),
    ("status", .str "Unknown"),
    ("reporter", .str "Unknown"),
    ("assignee", .str "Unknown"),
    ("priority", .str "Unknown"),
    ("issue_type", .str "Unknown"),
    ("description", .str noDescription),
    ("subtasks", .arr subs)]

/-- A concrete Jira transport answering the standard shape for ABC-1. -/
def jtW : String → Option Json := fun ep =>
  if ep = "/rest/api/3/issue/ABC-1" then
    some (.obj [("fields", .obj [("subtasks", .arr [])])])
  else none

/-- A concrete Confluence transport: search finds nothing, creation
succeeds. -/
def ctWCreate : Req → Option Json := fun r =>
  if r.method = "GET" then some (.obj [("results", .arr [])])
  else if r.method = "POST" then
    some (.obj [("_links",
      .obj [("base", .str "https://w"), ("webui", .str "/p1")])])
  else none

/-- A concrete Confluence transport: search finds page 777 at version
3, update succeeds. -/
def ctWUpdate : Req → Option Json := fun r =>
  if r.method = "GET" then some (.obj [("results", .arr [
    .obj [("id", .str "777"), ("version", .obj [("number", .num 3)])]])])
  else if r.method = "PUT" then
    some (.obj [("_links",
      .obj [("base", .str "https://w"), ("webui", .str "/p2")])])
  else none

/-- A concrete Confluence transport that always fails. -/
def ctWDead : Req → Option Json := fun _ => none

/-- The issue record `fetch_jira_issue_details` builds from an
arbitrary `fields` dict. -/
def issueOf (issue_key : String) (flds : List (String × Json)) : Json :=
  .obj [("key", .str issue_key),
    ("summary", (flds.lookup "summary").getD (.str "No summary")),
    ("status",
      extract_jira_field_value ((flds.lookup "status").getD .null) "name"),
    ("reporter",
      extract_jira_field_value ((flds.lookup "reporter").getD .null)
        "displayName"),
    ("assignee",
      extract_jira_field_value ((flds.lookup "assignee").getD .null)
        "displayName"),
    ("priority",
      extract_jira_field_value ((flds.lookup "priority").getD .null) "name"),
    ("issue_type",
      extract_jira_field_value ((flds.lookup "issuetype").getD .null) "name"),
    ("description",
      .str (extract_description_from_jira
        ((flds.lookup "description").getD .null))),
    ("subtasks", (flds.lookup "subtasks").getD (.arr []))]

/-- A second concrete Jira transport answering different issue content
for ABC-1 (a real summary, status and description). -/
def jtW2 : String → Option Json := fun ep =>
  if ep = "/rest/api/3/issue/ABC-1" then
    some (.obj [("fields", .obj [
      ("summary", .str "Fix the flux capacitor"),
      ("status", .obj [("name", .str "In Progress")]),
      ("description", .obj [("content", .arr [
        .obj [("type", .str "paragraph"), ("content", .arr [
          .obj [("type", .str "text"), ("text", .str "Do it")]])]])])])])
  else none

/-- The text runs of a list of inline nodes, left to right: the `text`
field of every node whose `type` is `"text"` (specification-side
description of §3 extraction order). -/
def textRunsInline : List Json → List String
  | [] => []
  | .obj fs :: rest =>
    if jsonEqStr ((fs.lookup "type").getD .null) "text" then
      (match (fs.lookup "text").getD (.str "") with
        | .str s => [s]
        | _ => []) ++ textRunsInline rest
    else textRunsInline rest
  | _ :: rest => textRunsInline rest

/-- The text runs of a list of block nodes, top to bottom: the inline
runs of every block whose `type` is `"paragraph"`. -/
def textRunsBlocks : List Json → List String
  | [] => []
  | .obj fs :: rest =>
    if jsonEqStr ((fs.lookup "type").getD .null) "paragraph" then
      (match (fs.lookup "content").getD (.arr []) with
        | .arr is => textRunsInline is
        | _ => []) ++ textRunsBlocks rest
    else textRunsBlocks rest
  | _ :: rest => textRunsBlocks rest

/-- The text runs of a whole rich-text document, in document order. -/
def textRunsDoc (d : Json) : List String :=
  match d with
  | .obj fs =>
    match (fs.lookup "content").getD .null with
    | .arr bs => textRunsBlocks bs
    | _ => []
  | _ => []

/-- A well-formed inline node: a dict; when recognized as a text node it
carries a non-empty string `text`.  Nodes of unrecognized type are
allowed (they are skipped). -/
def wfInline (j : Json) : Bool :=
  match j with
  | .obj fs =>
    if jsonEqStr ((fs.lookup "type").getD .null) "text" then
      match (fs.lookup "text").getD (.str "") with
      | .str s => s != ""
      | _ => false
    else true
  | _ => false

/-- A well-formed block node: a dict; when recognized as a paragraph
its `content` is a sequence of well-formed inline nodes.  Blocks of
unrecognized type are allowed (they are skipped). -/
def wfBlock (j : Json) : Bool :=
  match j with
  | .obj fs =>
    if jsonEqStr ((fs.lookup "type").getD .null) "paragraph" then
      match (fs.lookup "content").getD (.arr []) with
      | .arr is => is.all wfInline
      | _ => false
    else true
  | _ => false

/-- A well-formed rich-text document: a dict whose `content` is a
sequence of well-formed block nodes. -/
def wfDoc (d : Json) : Bool :=
  match d with
  | .obj fs =>
    match (fs.lookup "content").getD .null with
    | .arr bs => bs.all wfBlock
    | _ => false
  | _ => false

/-- A concrete well-formed document: two paragraphs with three text
runs in all, and an unrecognized `rule` block between them. -/
def wfTestDoc : Json := .obj [("content", .arr [
  .obj [("type", .str "paragraph"), ("content", .arr [
    .obj [("type", .str "text"), ("text", .str "Hello")],
    .obj [("type", .str "text"), ("text", .str "world")]])],
  .obj [("type", .str "rule")],
  .obj [("type", .str "paragraph"), ("content", .arr [
    .obj [("type", .str "text"), ("text", .str "bye")]])]])]

/-- Whether a JSON value is a dict (Python `isinstance(x, dict)`). -/
def Json.isObj : Json → Bool
  | .obj _ => true
  | _ => false

/-- A Jira transport answering a truthy non-dict body, on which the
issue-detail builder raises `AttributeError`. -/
def jtBad : String → Option Json := fun _ => some (.arr [.null])

/-- A Confluence transport answering a truthy non-dict body on every
request, which makes the tool bodies raise internally. -/
def ctBadResp : Req → Option Json := fun _ => some (.arr [.null])

/-- The error-marker record `fetch_subtask_details` produces when the
sub-issue GET fails. -/
def errRec (k : Json) : Json :=
  .obj [("key", k), ("error", .str "Unable to fetch subtask details")]

/-- Concatenation of rendered sections. -/
def concatStrs : List String → String
  | [] => ""
  | s :: rest => s ++ concatStrs rest

/-- The report header for an issue fetched with the standard (default)
fields. -/
def issueHeaderStd (ik : String) : String :=
  "\nJira Ticket: " ++ ik ++ "\nSummary: " ++ "No summary" ++ "\nStatus: " ++
  "Unknown" ++ "\nReporter: " ++ "Unknown" ++ "\nDescription: " ++
  "No description available" ++ "\n"

/-- A sub-issue reference that fetches successfully. -/
def subRefGood : Json := .obj [("key", .str "ABC-4")]

/-- The record produced for that sub-issue (all defaults). -/
def subRecGood : Json := .obj [("key", .str "ABC-4"),
  ("summary", .str "No summary"), ("status", .str "Unknown"),
  ("reporter", .str "Unknown"), ("description", .str noDescription)]

/-- Its rendered report section. -/
def subTxtGood : String :=
  "\n  - ABC-4: No summary\n    Status: Unknown\n    Reporter: Unknown" ++
  "\n    Description: No description available\n"

/-- A Jira transport: ABC-2 declares sub-issues ABC-4 (fetch succeeds)
and ABC-3 (fetch fails). -/
def jtW8 : String → Option Json := fun ep =>
  if ep = "/rest/api/3/issue/ABC-2" then
    some (.obj [("fields", .obj [("subtasks",
      .arr [subRefGood, .obj [("key", .str "ABC-3")]])])])
  else if ep = "/rest/api/3/issue/ABC-4" then
    some (.obj [("fields", .obj [])])
  else none

theorem M.run_pure (a : α) (σ : List Req) :
    (Pure.pure a : M α) σ = (.ok a, σ) := rfl
theorem M.run_bind (x : M α) (f : α → M β) (σ : List Req) :
    (x >>= f) σ =
      match x σ with
      | (.ok a, σ₁) => f a σ₁
      | (.error e, σ₁) => (.error e, σ₁) := rfl
theorem M.run_log (r : Req) (σ : List Req) :
    M.log r σ = (.ok (), σ ++ [r]) := rfl
theorem M.run_lift (e : Except PyError α) (σ : List Req) :
    M.lift e σ = (e, σ) := rfl
theorem pyUpper_GET : pyUpper "GET" = "GET" := rfl
theorem pyUpper_POST : pyUpper "POST" = "POST" := rfl
theorem pyUpper_PUT : pyUpper "PUT" = "PUT" := rfl

/-- Running `make_jira_request`: one logged GET, result straight from
the oracle. -/
theorem make_jira_request_run (jt : String → Option Json) (ep : String)
    (σ : List Req) :
    make_jira_request jt ep σ =
      (.ok (jt ep), σ ++ [⟨.jira, "GET", ep, .null⟩]) := rfl

/-- Running `make_confluence_request` with literal method `"GET"`. -/
theorem make_confluence_request_GET (ct : Req → Option Json)
    (ep : String) (p : Json) (σ : List Req) :
    make_confluence_request ct ep p "GET" σ =
      (.ok (ct ⟨.confluence, "GET", ep, p⟩),
        σ ++ [⟨.confluence, "GET", ep, p⟩]) := rfl

/-- Running `make_confluence_request` with literal method `"POST"`. -/
theorem make_confluence_request_POST (ct : Req → Option Json)
    (ep : String) (p : Json) (σ : List Req) :
    make_confluence_request ct ep p "POST" σ =
      (.ok (ct ⟨.confluence, "POST", ep, p⟩),
        σ ++ [⟨.confluence, "POST", ep, p⟩]) := rfl

/-- Running `make_confluence_request` with literal method `"PUT"`. -/
theorem make_confluence_request_PUT (ct : Req → Option Json)
    (ep : String) (p : Json) (σ : List Req) :
    make_confluence_request ct ep p "PUT" σ =
      (.ok (ct ⟨.confluence, "PUT", ep, p⟩),
        σ ++ [⟨.confluence, "PUT", ep, p⟩]) := rfl

/-- When Jira answers the standard shape `{"fields": {"subtasks":
subs}}`, `fetch_jira_issue_details` issues exactly the one GET and
builds `stdIssue`. -/
theorem fetch_jira_issue_details_std (jt : String → Option Json)
    (issue_key : String) (subs : List Json)
    (hj : jt ("/rest/api/3/issue/" ++ issue_key) =
      some (.obj [("fields", .obj [("subtasks", .arr subs)])]))
    (σ : List Req) :
    fetch_jira_issue_details jt issue_key σ =
      (.ok (some (stdIssue issue_key subs)), σ ++ [jiraIssueReq issue_key]) := by
  simp [fetch_jira_issue_details, make_jira_request, M.run_bind, M.run_log,
    M.run_pure, M.run_lift, hj, Json.falsy, pyGetD, pyGet, List.lookup,
    extract_jira_field_value, extract_description_from_jira, Json.truthy,
    stdIssue, jiraIssueReq, noDescription, M.bind, M.pure, M.log, M.lift]

/-- When the search transport fails (`None`), the lookup reports
not-found after its one GET. -/
theorem find_existing_page_transport_failure (ct : Req → Option Json)
    (space_key title : String)
    (hc : ct (searchReq space_key title) = none) (σ : List Req) :
    find_existing_confluence_page ct space_key title σ =
      (.ok none, σ ++ [searchReq space_key title]) := by
  simp [find_existing_confluence_page, make_confluence_request_GET,
    M.run_bind, M.run_pure, searchReq] at hc ⊢
  simp only [hc]
  rfl

/-- When the search answers an empty result list, the lookup reports
not-found after its one GET. -/
theorem find_existing_page_no_results (ct : Req → Option Json)
    (space_key title : String)
    (hc : ct (searchReq space_key title) =
      some (.obj [("results", .arr [])])) (σ : List Req) :
    find_existing_confluence_page ct space_key title σ =
      (.ok none, σ ++ [searchReq space_key title]) := by
  simp [find_existing_confluence_page, make_confluence_request_GET,
    M.run_bind, M.run_pure, searchReq] at hc ⊢
  simp only [hc]
  rfl

/-- When the search answers a non-empty result list, the lookup yields
the first result after its one GET. -/
theorem find_existing_page_found (ct : Req → Option Json)
    (space_key title : String) (p : Json) (ps : List Json)
    (hc : ct (searchReq space_key title) =
      some (.obj [("results", .arr (p :: ps))])) (σ : List Req) :
    find_existing_confluence_page ct space_key title σ =
      (.ok (some p), σ ++ [searchReq space_key title]) := by
  simp [find_existing_confluence_page, make_confluence_request_GET,
    M.run_bind, M.run_pure, searchReq] at hc ⊢
  simp only [hc]
  rfl

/-- The create branch: one POST; a truthy response renders the page URL. -/
theorem create_branch_ok (ct : Req → Option Json)
    (space_key title plan : String) (resp : Json) (url : String)
    (hcr : ct (createReq space_key title plan) = some resp)
    (hresp : resp.falsy = false)
    (hurl : extract_page_url resp = .ok url) (σ : List Req) :
    create_test_plan_create_branch ct space_key title plan σ =
      (.ok ("Test plan page created successfully: " ++ url),
        σ ++ [createReq space_key title plan]) := by
  simp [create_test_plan_create_branch, create_new_confluence_page,
    make_confluence_request_POST, M.run_bind, createReq] at hcr ⊢
  simp only [hcr, hresp]
  simp [M.run_bind, M.run_lift, hurl]
  rfl

/-- The create branch: one POST; an absent response yields the failure
text. -/
theorem create_branch_fail (ct : Req → Option Json)
    (space_key title plan : String)
    (hcr : ct (createReq space_key title plan) = none) (σ : List Req) :
    create_test_plan_create_branch ct space_key title plan σ =
      (.ok "Failed to create new test plan page",
        σ ++ [createReq space_key title plan]) := by
  simp [create_test_plan_create_branch, create_new_confluence_page,
    make_confluence_request_POST, M.run_bind, createReq] at hcr ⊢
  simp only [hcr]
  rfl

/-- Running `update_existing_confluence_page` with a numeric looked-up
version `V`: one PUT whose payload carries version number `V + 1`. -/
theorem update_page_run (ct : Req → Option Json) (pid : Json)
    (space_key title plan : String) (V : Int) (σ : List Req) :
    update_existing_confluence_page ct pid space_key title plan (.num V) σ =
      (.ok (ct (updateReq pid space_key title plan (.num (V + 1)))),
        σ ++ [updateReq pid space_key title plan (.num (V + 1))]) := by
  simp [update_existing_confluence_page, pyAdd1, make_confluence_request_PUT,
    M.run_bind, M.run_lift, updateReq]

/-- C1.  For every space_key/title/body: when the wiki search finds no
existing page with that title in that space, the create-or-update
reconciliation issues exactly one POST creation request and returns the
created page's URL; when the search finds an existing page whose
looked-up version is V, it issues exactly one GET-search followed by
exactly one PUT update request whose version number field equals V + 1
(the PUT payload's body is exactly the new body, replacing the old one),
and returns the updated page's URL.  The request log in the conclusion
is an exact equality, so the counts are exact; the Jira validation GET
precedes every wiki request. -/
theorem create_or_update_reconciliation :
    (∀ (jt : String → Option Json) (ct : Req → Option Json)
      (ik sk t plan : String) (resp : Json) (url : String),
      ik ≠ "" → sk ≠ "" → t ≠ "" → plan ≠ "" →
      jt ("/rest/api/3/issue/" ++ ik) =
        some (.obj [("fields", .obj [("subtasks", .arr [])])]) →
      ct (searchReq sk t) = some (.obj [("results", .arr [])]) →
      ct (createReq sk t plan) = some resp →
      resp.falsy = false →
      extract_page_url resp = .ok url →
      create_test_plan_from_jira jt ct ik sk t plan =
        ("Test plan page created successfully: " ++ url,
          [jiraIssueReq ik, searchReq sk t, createReq sk t plan])) ∧
    (∀ (jt : String → Option Json) (ct : Req → Option Json)
      (ik sk t plan : String) (fs : List (String × Json)) (pid : Json)
      (V : Int) (ps : List Json) (resp : Json) (url : String),
      ik ≠ "" → sk ≠ "" → t ≠ "" → plan ≠ "" →
      jt ("/rest/api/3/issue/" ++ ik) =
        some (.obj [("fields", .obj [("subtasks", .arr [])])]) →
      ct (searchReq sk t) =
        some (.obj [("results", .arr (Json.obj fs :: ps))]) →
      fs.lookup "id" = some pid →
      fs.lookup "version" = some (.obj [("number", .num V)]) →
      ct (updateReq pid sk t plan (.num (V + 1))) = some resp →
      resp.falsy = false →
      extract_page_url resp = .ok url →
      create_test_plan_from_jira jt ct ik sk t plan =
        ("Test plan page updated successfully: " ++ url,
          [jiraIssueReq ik, searchReq sk t,
            updateReq pid sk t plan (.num (V + 1))])) := by
  constructor
  · intro jt ct ik sk t plan resp url hik hsk ht hplan hj hs hcr hresp hurl
    unfold create_test_plan_from_jira create_test_plan_from_jira_run
    rw [if_neg (by simp [hik, hsk, ht, hplan])]
    simp [M.run_bind, M.run_lift, fetch_jira_issue_details_std jt ik [] hj,
      find_existing_page_no_results ct sk t hs,
      create_branch_ok ct sk t plan resp url hcr hresp hurl,
      stdIssue, Json.falsy, pySubscript, List.lookup]
  · intro jt ct ik sk t plan fs pid V ps resp url hik hsk ht hplan hj hs
      hid hver hupd hresp hurl
    unfold create_test_plan_from_jira create_test_plan_from_jira_run
    rw [if_neg (by simp [hik, hsk, ht, hplan])]
    have hne : fs.isEmpty = false := by
      cases fs with
      | nil => simp [List.lookup] at hid
      | cons a l => rfl
    simp [Json.falsy] at hresp
    simp [M.run_bind, M.run_lift, fetch_jira_issue_details_std jt ik [] hj,
      find_existing_page_found ct sk t _ ps hs,
      update_page_run, stdIssue, Json.falsy, pySubscript,
      List.lookup, hne, hid, hver, hupd, hresp, hurl]
    rfl

/-- Witness for the reconciliation theorem at concrete inputs: a fresh
title creates via one POST; an existing page at version 3 updates via
one PUT at version 4. -/
theorem create_or_update_reconciliation_witness :
    create_test_plan_from_jira jtW ctWCreate "ABC-1" "SP" "T" "<p>b</p>" =
      ("Test plan page created successfully: https://w/p1",
        [jiraIssueReq "ABC-1", searchReq "SP" "T",
          createReq "SP" "T" "<p>b</p>"]) ∧
    create_test_plan_from_jira jtW ctWUpdate "ABC-1" "SP" "T" "<p>b</p>" =
      ("Test plan page updated successfully: https://w/p2",
        [jiraIssueReq "ABC-1", searchReq "SP" "T",
          updateReq (.str "777") "SP" "T" "<p>b</p>" (.num (3 + 1))]) :=
  ⟨create_or_update_reconciliation.1 jtW ctWCreate "ABC-1" "SP" "T" "<p>b</p>"
      (.obj [("_links",
        .obj [("base", .str "https://w"), ("webui", .str "/p1")])])
      "https://w/p1"
      (by decide) (by decide) (by decide) (by decide)
      (by rfl) (by rfl) (by rfl) (by rfl) (by rfl),
   create_or_update_reconciliation.2 jtW ctWUpdate "ABC-1" "SP" "T" "<p>b</p>"
      [("id", .str "777"), ("version", .obj [("number", .num 3)])]
      (.str "777") 3 []
      (.obj [("_links",
        .obj [("base", .str "https://w"), ("webui", .str "/p2")])])
      "https://w/p2"
      (by decide) (by decide) (by decide) (by decide)
      (by rfl) (by rfl) (by rfl) (by rfl) (by rfl) (by rfl) (by rfl)⟩

/-- C7.  When the wiki search step returns no usable JSON (transport
failure), the reconciliation treats it exactly as not-found and
attempts creation (the POST creation request is issued); when that
creation request itself also fails, the operation returns the failure
text, not a URL.  The exact request log shows both attempts. -/
theorem reconciliation_search_failure_creates (jt : String → Option Json)
    (ct : Req → Option Json) (ik sk t plan : String) :
    ik ≠ "" → sk ≠ "" → t ≠ "" → plan ≠ "" →
    jt ("/rest/api/3/issue/" ++ ik) =
      some (.obj [("fields", .obj [("subtasks", .arr [])])]) →
    ct (searchReq sk t) = none →
    ct (createReq sk t plan) = none →
    create_test_plan_from_jira jt ct ik sk t plan =
      ("Failed to create new test plan page",
        [jiraIssueReq ik, searchReq sk t, createReq sk t plan]) := by
  intro hik hsk ht hplan hj hs hcr
  unfold create_test_plan_from_jira create_test_plan_from_jira_run
  rw [if_neg (by simp [hik, hsk, ht, hplan])]
  simp [M.run_bind, M.run_lift, fetch_jira_issue_details_std jt ik [] hj,
    find_existing_page_transport_failure ct sk t hs,
    create_branch_fail ct sk t plan hcr,
    stdIssue, Json.falsy, pySubscript, List.lookup]

/-- Witness: with a dead wiki transport, the reconciliation for ABC-1
attempts the search, then the creation, and reports the failure text. -/
theorem reconciliation_search_failure_creates_witness :
    create_test_plan_from_jira jtW ctWDead "ABC-1" "SP" "T" "<p>b</p>" =
      ("Failed to create new test plan page",
        [jiraIssueReq "ABC-1", searchReq "SP" "T",
          createReq "SP" "T" "<p>b</p>"]) :=
  reconciliation_search_failure_creates jtW ctWDead "ABC-1" "SP" "T" "<p>b</p>"
    (by decide) (by decide) (by decide) (by decide)
    (by rfl) (by rfl) (by rfl)

/-- When the Jira GET fails, `fetch_jira_issue_details` yields `none`
after its one request. -/
theorem fetch_jira_issue_details_none (jt : String → Option Json)
    (issue_key : String)
    (hj : jt ("/rest/api/3/issue/" ++ issue_key) = none) (σ : List Req) :
    fetch_jira_issue_details jt issue_key σ =
      (.ok none, σ ++ [jiraIssueReq issue_key]) := by
  simp [fetch_jira_issue_details, make_jira_request_run, M.run_bind, hj,
    jiraIssueReq]
  rfl

/-- When Jira answers any dict whose `fields` entry is itself a dict,
`fetch_jira_issue_details` succeeds with the record built from that
dict, after its one request. -/
theorem fetch_jira_issue_details_ok (jt : String → Option Json)
    (issue_key : String) (flds : List (String × Json))
    (rest : List (String × Json))
    (hj : jt ("/rest/api/3/issue/" ++ issue_key) =
      some (.obj (("fields", .obj flds) :: rest))) (σ : List Req) :
    fetch_jira_issue_details jt issue_key σ =
      (.ok (some (issueOf issue_key flds)), σ ++ [jiraIssueReq issue_key]) := by
  simp [fetch_jira_issue_details, make_jira_request_run, M.run_bind,
    M.run_lift, hj, jiraIssueReq, Json.falsy, pyGetD, pyGet, List.lookup,
    issueOf]
  rfl

/-- C9.  `create_test_plan_from_jira` fetches the named issue before
any wiki operation, purely for validation.  First conjunct: when the
issue fetch fails, the operation returns the failure message and the
whole request log is the single Jira GET — no wiki request was made,
so no page is created or updated.  Second conjunct: for any two Jira
transports whose responses both validate (a dict with a dict `fields`),
the operation's result — text and full request log, hence every wiki
payload — is identical, so the fetched issue content is not embedded in
the page; the page body comes only from the caller-supplied test-plan
argument. -/
theorem test_plan_fetch_validation_only :
    (∀ (jt : String → Option Json) (ct : Req → Option Json)
      (ik sk t plan : String),
      ik ≠ "" → sk ≠ "" → t ≠ "" → plan ≠ "" →
      jt ("/rest/api/3/issue/" ++ ik) = none →
      create_test_plan_from_jira jt ct ik sk t plan =
        ("Unable to fetch Jira ticket " ++ ik ++ " for validation.",
          [jiraIssueReq ik])) ∧
    (∀ (jt₁ jt₂ : String → Option Json) (ct : Req → Option Json)
      (ik sk t plan : String)
      (flds₁ rest₁ flds₂ rest₂ : List (String × Json)),
      jt₁ ("/rest/api/3/issue/" ++ ik) =
        some (.obj (("fields", .obj flds₁) :: rest₁)) →
      jt₂ ("/rest/api/3/issue/" ++ ik) =
        some (.obj (("fields", .obj flds₂) :: rest₂)) →
      create_test_plan_from_jira jt₁ ct ik sk t plan =
        create_test_plan_from_jira jt₂ ct ik sk t plan) := by
  constructor
  · intro jt ct ik sk t plan hik hsk ht hplan hj
    unfold create_test_plan_from_jira create_test_plan_from_jira_run
    rw [if_neg (by simp [hik, hsk, ht, hplan])]
    simp [M.run_bind, fetch_jira_issue_details_none jt ik hj]
    rfl
  · intro jt₁ jt₂ ct ik sk t plan flds₁ rest₁ flds₂ rest₂ hj₁ hj₂
    unfold create_test_plan_from_jira create_test_plan_from_jira_run
    by_cases hval : (ik = "" ∨ sk = "" ∨ t = "" ∨ plan = "")
    · simp only [if_pos hval]
    · simp only [if_neg hval]
      simp [M.run_bind, M.run_lift,
        fetch_jira_issue_details_ok jt₁ ik flds₁ rest₁ hj₁,
        fetch_jira_issue_details_ok jt₂ ik flds₂ rest₂ hj₂,
        issueOf, Json.falsy, pySubscript, List.lookup]

/-- Witness: with a dead Jira transport nothing but the one Jira GET
happens; and swapping the issue content (`jtW` vs `jtW2`) leaves the
operation's result — including every wiki payload — unchanged. -/
theorem test_plan_fetch_validation_only_witness :
    create_test_plan_from_jira (fun _ => none) ctWCreate
        "ABC-1" "SP" "T" "<p>b</p>" =
      ("Unable to fetch Jira ticket ABC-1 for validation.",
        [jiraIssueReq "ABC-1"]) ∧
    create_test_plan_from_jira jtW ctWCreate "ABC-1" "SP" "T" "<p>b</p>" =
      create_test_plan_from_jira jtW2 ctWCreate "ABC-1" "SP" "T" "<p>b</p>" :=
  ⟨test_plan_fetch_validation_only.1 (fun _ => none) ctWCreate
      "ABC-1" "SP" "T" "<p>b</p>"
      (by decide) (by decide) (by decide) (by decide) (by rfl),
   test_plan_fetch_validation_only.2 jtW jtW2 ctWCreate
      "ABC-1" "SP" "T" "<p>b</p>"
      [("subtasks", .arr [])] []
      [("summary", .str "Fix the flux capacitor"),
       ("status", .obj [("name", .str "In Progress")]),
       ("description", .obj [("content", .arr [
         .obj [("type", .str "paragraph"), ("content", .arr [
           .obj [("type", .str "text"), ("text", .str "Do it")]])]])])] []
      (by rfl) (by rfl)⟩

/-- C10.  For every method string whose uppercasing is none of POST,
PUT, GET, the wiki transport call returns an absent result — the same
sentinel as a transport failure — rather than raising to its caller,
and issues no request: the `ValueError` raised inside the function is
caught by the same `except Exception` handler that downgrades transport
errors, so the result is a normal `none`, never an exception. -/
theorem unsupported_method_degrades (ct : Req → Option Json)
    (endpoint : String) (payload : Json) (method : String) (σ : List Req) :
    pyUpper method ≠ "POST" → pyUpper method ≠ "PUT" →
    pyUpper method ≠ "GET" →
    make_confluence_request ct endpoint payload method σ = (.ok none, σ) := by
  intro h₁ h₂ h₃
  unfold make_confluence_request
  rw [if_neg (by simp [h₁, h₂, h₃])]
  rfl

/-- Witness: a DELETE call returns `none` and issues nothing. -/
theorem unsupported_method_degrades_witness :
    make_confluence_request ctWDead "/rest/api/content" .null "delete" [] =
      (.ok none, []) :=
  unsupported_method_degrades ctWDead "/rest/api/content" .null "delete" []
    (by decide) (by decide) (by decide)

/-- Reduction of `Except` bind on a success. -/
theorem except_bind_ok (a : α) (f : α → Except PyError β) :
    (Except.ok a >>= f) = f a := rfl

/-- Reduction of `Except` bind on an error. -/
theorem except_bind_err (e : PyError) (f : α → Except PyError β) :
    ((Except.error e : Except PyError α) >>= f) = Except.error e := rfl

/-- C3.  Any traversal error inside the extractor body — whatever
malformed node shape raised it — is caught locally: the extractor never
propagates an exception and returns the sentinel string. -/
theorem extract_malformed_degrades (d : Json) (e : PyError)
    (h : extractDescCore d = .error e) :
    extract_description_from_jira d = noDescription := by
  unfold extract_description_from_jira
  by_cases hf : d.falsy = true
  · simp [hf]
  · simp [hf, h]

/-- Witness: the spec's example — a paragraph block whose inner content
is not a sequence — raises a `TypeError` internally, and the extractor
returns the sentinel. -/
theorem extract_malformed_degrades_witness :
    extractDescCore (.obj [("content", .arr [.obj [("type", .str "paragraph"),
        ("content", .num 5)]])]) = .error .typeError ∧
    extract_description_from_jira (.obj [("content",
        .arr [.obj [("type", .str "paragraph"), ("content", .num 5)]])]) =
      noDescription :=
  ⟨by rfl,
   extract_malformed_degrades (.obj [("content", .arr [.obj
     [("type", .str "paragraph"), ("content", .num 5)]])]) .typeError (by rfl)⟩

/-- C5.  The extractor returns exactly the sentinel — a non-empty
string — when the document is absent (`None`), when it has no block
nodes (`content` absent, empty or otherwise falsy), and when the
traversal collects no text runs at all. -/
theorem extract_absent_or_empty_sentinel :
    extract_description_from_jira .null = noDescription ∧
    (∀ fs : List (String × Json),
      ((fs.lookup "content").getD (.arr [])).falsy = true →
      extract_description_from_jira (.obj fs) = noDescription) ∧
    (∀ (fs : List (String × Json)) (c : Json) (items : List Json),
      fs.lookup "content" = some c → c.falsy = false →
      pyIter c = .ok items → collectBlocks items = .ok [] →
      extract_description_from_jira (.obj fs) = noDescription) ∧
    noDescription ≠ "" := by
  refine ⟨rfl, ?_, ?_, by decide⟩
  · intro fs h
    unfold extract_description_from_jira extractDescCore
    by_cases hf : Json.falsy (.obj fs) = true
    · simp [hf]
    · simp [hf, pyGetD, h, except_bind_ok]
  · intro fs c items hlk hc hit hcb
    unfold extract_description_from_jira extractDescCore
    by_cases hf : Json.falsy (.obj fs) = true
    · simp [hf]
    · simp [hf, pyGetD, hlk, hc, hit, hcb, except_bind_ok]

/-- Witness for the sentinel cases: an absent document, a document with
an empty block list, and a document whose single paragraph holds only
an unrecognized inline node all yield the sentinel. -/
theorem extract_absent_or_empty_sentinel_witness :
    extract_description_from_jira (.obj [("content", .arr [])]) =
      noDescription ∧
    extract_description_from_jira (.obj [("content", .arr [.obj
      [("type", .str "paragraph"), ("content", .arr [.obj
        [("type", .str "mention")]])]])]) = noDescription :=
  ⟨extract_absent_or_empty_sentinel.2.1 [("content", .arr [])] (by rfl),
   extract_absent_or_empty_sentinel.2.2.1
     [("content", .arr [.obj [("type", .str "paragraph"),
       ("content", .arr [.obj [("type", .str "mention")]])]])]
     (.arr [.obj [("type", .str "paragraph"),
       ("content", .arr [.obj [("type", .str "mention")]])]])
     [.obj [("type", .str "paragraph"),
       ("content", .arr [.obj [("type", .str "mention")]])]]
     (by rfl) (by rfl) (by rfl) (by rfl)⟩

/-- On well-formed inline nodes the program's inner loop collects
exactly the text runs, left to right, as strings. -/
theorem collectInline_wf (items : List Json)
    (h : items.all wfInline = true) :
    collectInline items = .ok ((textRunsInline items).map Json.str) := by
  induction items with
  | nil => rfl
  | cons ti rest ih =>
    simp only [List.all_cons, Bool.and_eq_true] at h
    obtain ⟨h₁, h₂⟩ := h
    match ti with
    | .obj fs =>
      simp only [wfInline] at h₁
      unfold collectInline textRunsInline
      by_cases hty : jsonEqStr ((fs.lookup "type").getD .null) "text" = true
      · rw [if_pos hty] at h₁
        cases htx : (fs.lookup "text").getD (.str "") with
        | str s =>
          rw [htx] at h₁
          have hs : (s == "") = false := by
            cases hseq : s == "" with
            | false => rfl
            | true => exact absurd (by simpa using hseq) (by simpa using h₁)
          simp [pyGet, pyGetD, hty, htx, ih h₂, except_bind_ok,
            Json.truthy, Json.falsy, hs]
        | null => rw [htx] at h₁; simp at h₁
        | bool b => rw [htx] at h₁; simp at h₁
        | num n => rw [htx] at h₁; simp at h₁
        | arr xs => rw [htx] at h₁; simp at h₁
        | obj gs => rw [htx] at h₁; simp at h₁
      · rw [if_neg hty] at h₁
        simp [pyGet, hty, ih h₂, except_bind_ok]
    | .null => simp [wfInline] at h₁
    | .bool b => simp [wfInline] at h₁
    | .num n => simp [wfInline] at h₁
    | .str s => simp [wfInline] at h₁
    | .arr xs => simp [wfInline] at h₁

/-- On well-formed block nodes the program's outer loop collects
exactly the text runs of the paragraphs, top to bottom. -/
theorem collectBlocks_wf (bs : List Json) (h : bs.all wfBlock = true) :
    collectBlocks bs = .ok ((textRunsBlocks bs).map Json.str) := by
  induction bs with
  | nil => rfl
  | cons b rest ih =>
    simp only [List.all_cons, Bool.and_eq_true] at h
    obtain ⟨h₁, h₂⟩ := h
    match b with
    | .obj fs =>
      simp only [wfBlock] at h₁
      unfold collectBlocks textRunsBlocks
      by_cases hty :
          jsonEqStr ((fs.lookup "type").getD .null) "paragraph" = true
      · rw [if_pos hty] at h₁
        cases hpc : (fs.lookup "content").getD (.arr []) with
        | arr is =>
          rw [hpc] at h₁
          simp [pyGet, pyGetD, hty, hpc, pyIter, collectInline_wf is h₁,
            ih h₂, except_bind_ok]
        | null => rw [hpc] at h₁; simp at h₁
        | bool v => rw [hpc] at h₁; simp at h₁
        | num v => rw [hpc] at h₁; simp at h₁
        | str v => rw [hpc] at h₁; simp at h₁
        | obj v => rw [hpc] at h₁; simp at h₁
      · rw [if_neg hty] at h₁
        simp [pyGet, hty, ih h₂, except_bind_ok]
    | .null => simp [wfBlock] at h₁
    | .bool v => simp [wfBlock] at h₁
    | .num v => simp [wfBlock] at h₁
    | .str v => simp [wfBlock] at h₁
    | .arr v => simp [wfBlock] at h₁

/-- The join pre-pass accepts a list of string parts unchanged. -/
theorem pyStrList_map_str (ss : List String) :
    pyStrList (ss.map Json.str) = .ok ss := by
  induction ss with
  | nil => rfl
  | cons s rest ih => simp [pyStrList, ih, Except.map]

/-- C4.  On every well-formed rich-text document containing at least
one text run, the extractor returns exactly the document's text runs
joined by single spaces, in document order (top to bottom, left to
right), unrecognized nodes being skipped silently (well-formedness
allows them); and extraction is a function of the document alone, so
re-extraction of the same input always yields the same output. -/
theorem extract_wellformed_joins_runs :
    (∀ d : Json, wfDoc d = true → textRunsDoc d ≠ [] →
      extract_description_from_jira d = pyJoinList " " (textRunsDoc d)) ∧
    (∀ d₁ d₂ : Json, d₁ = d₂ →
      extract_description_from_jira d₁ = extract_description_from_jira d₂) := by
  constructor
  · intro d hwf hruns
    match d with
    | .obj fs =>
      simp only [wfDoc] at hwf
      cases hlk : fs.lookup "content" with
      | none => rw [hlk] at hwf; simp at hwf
      | some c =>
        rw [hlk] at hwf
        match c with
        | .arr bs =>
          have hne : fs.isEmpty = false := by
            cases fs with
            | nil => simp [List.lookup] at hlk
            | cons a l => rfl
          have hbs : textRunsBlocks bs ≠ [] := by
            simpa [textRunsDoc, hlk] using hruns
          have hbs0 : bs.isEmpty = false := by
            cases bs with
            | nil => simp [textRunsBlocks] at hbs
            | cons x l => rfl
          have hparts : ¬ (textRunsBlocks bs).isEmpty = true := by
            simpa using hbs
          unfold extract_description_from_jira extractDescCore
          simp [Json.falsy, hne, pyGetD, hlk, hbs0, pyIter,
            collectBlocks_wf bs (by simpa using hwf), except_bind_ok,
            textRunsDoc, hparts, hbs, pyStrList_map_str]
        | .null => simp at hwf
        | .bool v => simp at hwf
        | .num v => simp at hwf
        | .str v => simp at hwf
        | .obj v => simp at hwf
    | .null => simp [wfDoc] at hwf
    | .bool v => simp [wfDoc] at hwf
    | .num v => simp [wfDoc] at hwf
    | .str v => simp [wfDoc] at hwf
    | .arr v => simp [wfDoc] at hwf
  · intro d₁ d₂ h
    rw [h]

/-- Witness: the concrete document extracts to its runs joined by
single spaces in document order, the unrecognized block skipped, and
re-extraction agrees. -/
theorem extract_wellformed_joins_runs_witness :
    extract_description_from_jira wfTestDoc = "Hello world bye" ∧
    extract_description_from_jira wfTestDoc =
      extract_description_from_jira wfTestDoc :=
  ⟨extract_wellformed_joins_runs.1 wfTestDoc (by rfl) (by decide),
   extract_wellformed_joins_runs.2 wfTestDoc wfTestDoc rfl⟩

/-- C6.  The field accessor: absent/empty (falsy) input yields
`"Unknown"`; a present (non-empty) dict missing the requested key
yields `"Unknown"`; a present dict containing the key yields that key's
value; any other non-empty value yields its string form. -/
theorem extract_field_cases :
    (∀ (fd : Json) (name : String), fd.falsy = true →
      extract_jira_field_value fd name = .str "Unknown") ∧
    (∀ (fs : List (String × Json)) (name : String), fs ≠ [] →
      fs.lookup name = none →
      extract_jira_field_value (.obj fs) name = .str "Unknown") ∧
    (∀ (fs : List (String × Json)) (name : String) (v : Json), fs ≠ [] →
      fs.lookup name = some v →
      extract_jira_field_value (.obj fs) name = v) ∧
    (∀ (fd : Json) (name : String), fd.falsy = false → fd.isObj = false →
      extract_jira_field_value fd name = .str fd.pyStr) := by
  refine ⟨?_, ?_, ?_, ?_⟩
  · intro fd name hf
    unfold extract_jira_field_value
    simp [hf]
  · intro fs name hne hlk
    have hff : Json.falsy (.obj fs) = false := by
      cases fs with
      | nil => exact absurd rfl hne
      | cons a l => rfl
    unfold extract_jira_field_value
    simp [hff, hlk]
  · intro fs name v hne hlk
    have hff : Json.falsy (.obj fs) = false := by
      cases fs with
      | nil => exact absurd rfl hne
      | cons a l => rfl
    unfold extract_jira_field_value
    simp [hff, hlk]
  · intro fd name hf hobj
    unfold extract_jira_field_value
    match fd with
    | .obj fs => simp [Json.isObj] at hobj
    | .null => simp [Json.falsy] at hf
    | .bool b => simp [hf, Json.truthy]
    | .num n => simp [hf, Json.truthy]
    | .str s => simp [hf, Json.truthy]
    | .arr xs => simp [hf, Json.truthy]

/-- Witness: the four accessor behaviors at concrete inputs — absent
object, key missing, key present, non-dict value. -/
theorem extract_field_cases_witness :
    extract_jira_field_value .null "name" = .str "Unknown" ∧
    extract_jira_field_value (.obj [("x", .num 1)]) "name" = .str "Unknown" ∧
    extract_jira_field_value (.obj [("name", .str "Done")]) "name" =
      .str "Done" ∧
    extract_jira_field_value (.str "hi") "name" = .str "hi" :=
  ⟨extract_field_cases.1 .null "name" (by rfl),
   extract_field_cases.2.1 [("x", .num 1)] "name" (by simp) (by rfl),
   extract_field_cases.2.2.1 [("name", .str "Done")] "name" (.str "Done")
     (by simp) (by rfl),
   extract_field_cases.2.2.2 (.str "hi") "name" (by rfl) (by rfl)⟩

/-- C2 counterexample.  The claim that all three tools validate their
arguments before I/O and catch exceptions is false on `get_jira_ticket`:
with a truthy non-dict Jira response the exception propagates out of the
tool (the result is an `Except.error`, not a textual message), and with
an empty `issue_key` the Jira request is still issued (the log is
non-empty), so no validation precedes I/O. -/
theorem tool_validation_counterexample :
    get_jira_ticket jtBad "ABC-1" =
      (.error .attributeError, [jiraIssueReq "ABC-1"]) ∧
    get_jira_ticket (fun _ => none) "" =
      (.ok "Unable to fetch Jira ticket .", [jiraIssueReq ""]) :=
  ⟨rfl, rfl⟩

/-- C2 amended.  `create_confluence_page` and `create_test_plan_from_jira`
validate that every required string argument is non-empty before any
I/O (empty-argument calls return the validation message with an empty
request log) and catch any exception raised in their bodies, converting
it into a textual error message; `get_jira_ticket` does neither — an
empty `issue_key` still triggers the Jira fetch, and an exception raised
in its body propagates to the caller. -/
theorem tool_validation_amended :
    (∀ (ct : Req → Option Json) (sk t b : String),
      (sk = "" ∨ t = "" ∨ b = "") →
      create_confluence_page ct sk t b =
        ("Error: space_key, title, and body are all required", [])) ∧
    (∀ (jt : String → Option Json) (ct : Req → Option Json)
      (ik sk t p : String),
      (ik = "" ∨ sk = "" ∨ t = "" ∨ p = "") →
      create_test_plan_from_jira jt ct ik sk t p =
        ("Error: All parameters (issue_key, confluence_space_key, " ++
          "confluence_title, test_plan) are required", [])) ∧
    (∀ (ct : Req → Option Json) (sk t b : String) (e : PyError)
      (σ : List Req),
      create_confluence_page_run ct sk t b [] = (.error e, σ) →
      create_confluence_page ct sk t b =
        ("Error creating page: " ++ pyErrStr e, σ)) ∧
    (∀ (jt : String → Option Json) (ct : Req → Option Json)
      (ik sk t p : String) (e : PyError) (σ : List Req),
      create_test_plan_from_jira_run jt ct ik sk t p [] = (.error e, σ) →
      create_test_plan_from_jira jt ct ik sk t p =
        ("Error creating or updating test plan page: " ++ pyErrStr e, σ)) ∧
    (∀ jt : String → Option Json, jt "/rest/api/3/issue/" = none →
      get_jira_ticket jt "" =
        (.ok "Unable to fetch Jira ticket .", [jiraIssueReq ""])) ∧
    (∀ (jt : String → Option Json) (ik : String),
      jt ("/rest/api/3/issue/" ++ ik) = some (.arr [.null]) →
      get_jira_ticket jt ik =
        (.error .attributeError, [jiraIssueReq ik])) := by
  refine ⟨?_, ?_, ?_, ?_, ?_, ?_⟩
  · intro ct sk t b h
    unfold create_confluence_page create_confluence_page_run
    rw [if_pos h]
    rfl
  · intro jt ct ik sk t p h
    unfold create_test_plan_from_jira create_test_plan_from_jira_run
    rw [if_pos h]
    rfl
  · intro ct sk t b e σ h
    unfold create_confluence_page
    rw [h]
  · intro jt ct ik sk t p e σ h
    unfold create_test_plan_from_jira
    rw [h]
  · intro jt h
    have h2 : jt ("/rest/api/3/issue/" ++ "") = none := by
      have : ("/rest/api/3/issue/" ++ "" : String) = "/rest/api/3/issue/" :=
        rfl
      rw [this, h]
    unfold get_jira_ticket
    simp [M.run_bind, fetch_jira_issue_details_none jt "" h2]
    rfl
  · intro jt ik h
    unfold get_jira_ticket fetch_jira_issue_details
    simp [M.run_bind, make_jira_request_run, h, Json.falsy, pyGetD,
      M.run_lift]
    rfl

/-- Witness for the amended C2 statement: each conjunct at a concrete
input — validation messages with empty logs, exceptions converted to
text by the two wrapped tools, and `get_jira_ticket` fetching with an
empty key and propagating an exception. -/
theorem tool_validation_amended_witness :
    create_confluence_page ctWDead "" "T" "B" =
      ("Error: space_key, title, and body are all required", []) ∧
    create_test_plan_from_jira jtW ctWDead "" "SP" "T" "B" =
      ("Error: All parameters (issue_key, confluence_space_key, " ++
        "confluence_title, test_plan) are required", []) ∧
    create_confluence_page ctBadResp "SP" "T" "B" =
      ("Error creating page: " ++ pyErrStr .attributeError,
        [createReq "SP" "T" "B"]) ∧
    create_test_plan_from_jira jtW ctBadResp "ABC-1" "SP" "T" "B" =
      ("Error creating or updating test plan page: " ++
        pyErrStr .attributeError,
        [jiraIssueReq "ABC-1", searchReq "SP" "T"]) ∧
    get_jira_ticket (fun _ => none) "" =
      (.ok "Unable to fetch Jira ticket .", [jiraIssueReq ""]) ∧
    get_jira_ticket jtBad "XYZ" =
      (.error .attributeError, [jiraIssueReq "XYZ"]) :=
  ⟨tool_validation_amended.1 ctWDead "" "T" "B" (Or.inl rfl),
   tool_validation_amended.2.1 jtW ctWDead "" "SP" "T" "B" (Or.inl rfl),
   tool_validation_amended.2.2.1 ctBadResp "SP" "T" "B" .attributeError
     [createReq "SP" "T" "B"] (by rfl),
   tool_validation_amended.2.2.2.1 jtW ctBadResp "ABC-1" "SP" "T" "B"
     .attributeError [jiraIssueReq "ABC-1", searchReq "SP" "T"] (by rfl),
   tool_validation_amended.2.2.2.2.1 (fun _ => none) (by rfl),
   tool_validation_amended.2.2.2.2.2 jtBad "XYZ" (by rfl)⟩

/-- When a sub-issue reference carries a (non-empty, string) key whose
fetch fails, `fetch_subtask_details` still produces a record — the
error marker — never an empty result, after its one GET. -/
theorem fetch_subtask_details_fail (jt : String → Option Json)
    (fs : List (String × Json)) (k : String)
    (hk : fs.lookup "key" = some (.str k)) (hne : k ≠ "")
    (hfail : jt ("/rest/api/3/issue/" ++ k) = none) (σ : List Req) :
    fetch_subtask_details jt (.obj fs) σ =
      (.ok (errRec (.str k)), σ ++ [jiraIssueReq k]) := by
  unfold fetch_subtask_details
  simp [M.run_bind, M.run_lift, pyGet, hk, Json.falsy, hne,
    make_jira_request_run, Json.pyStr, hfail, jiraIssueReq, errRec]
  rfl

/-- The error marker renders as the per-sub-issue error line. -/
theorem render_subtask_errRec (k : String) :
    render_subtask (errRec (.str k)) =
      .ok ("\n  - " ++ k ++ ": " ++ "Unable to fetch subtask details" ++
        "\n") := rfl

/-- Rendering a list of records that each render successfully yields
the concatenation of their sections, in order. -/
theorem render_subtask_list_map (recOf : Json → Json)
    (txtOf : Json → String) (xs : List Json)
    (h : ∀ s ∈ xs, render_subtask (recOf s) = .ok (txtOf s)) :
    render_subtask_list (xs.map recOf) = .ok (concatStrs (xs.map txtOf)) := by
  induction xs with
  | nil => rfl
  | cons s rest ih =>
    have hs := h s (by simp)
    have hrest := ih fun x hx => h x (by simp [hx])
    simp [render_subtask_list, concatStrs, hs, hrest, except_bind_ok]

/-- Rendering distributes over list concatenation. -/
theorem render_subtask_list_append (xs ys : List Json) (a b : String)
    (hx : render_subtask_list xs = .ok a)
    (hy : render_subtask_list ys = .ok b) :
    render_subtask_list (xs ++ ys) = .ok (a ++ b) := by
  induction xs generalizing a with
  | nil =>
    unfold render_subtask_list at hx
    obtain rfl : a = "" := by simpa using hx.symm
    simpa using hy
  | cons s rest ih =>
    unfold render_subtask_list at hx ⊢
    cases hs : render_subtask s with
    | error e => rw [hs] at hx; simp [except_bind_err] at hx
    | ok t =>
      rw [hs] at hx
      simp only [except_bind_ok] at hx ⊢
      cases hr : render_subtask_list rest with
      | error e => rw [hr] at hx; simp [except_bind_err] at hx
      | ok u =>
        rw [hr] at hx
        simp only [except_bind_ok] at hx
        obtain rfl : a = t ++ u := by simpa using hx.symm
        simp [hs, ih u hr, except_bind_ok, String.append_assoc]

/-- Sequential sub-issue fetching distributes over list concatenation. -/
theorem fetch_all_subtasks_append (jt : String → Option Json)
    (xs ys : List Json) (σ σ₁ σ₂ : List Req) (as bs : List Json)
    (hx : fetch_all_subtasks jt xs σ = (.ok as, σ₁))
    (hy : fetch_all_subtasks jt ys σ₁ = (.ok bs, σ₂)) :
    fetch_all_subtasks jt (xs ++ ys) σ = (.ok (as ++ bs), σ₂) := by
  induction xs generalizing σ as with
  | nil =>
    simp only [fetch_all_subtasks, M.run_pure, List.nil_append] at hx ⊢
    simp only [Prod.mk.injEq, Except.ok.injEq] at hx
    obtain ⟨h1, h2⟩ := hx
    subst h1
    subst h2
    simpa using hy
  | cons s rest ih =>
    simp only [List.cons_append, fetch_all_subtasks, M.run_bind] at hx ⊢
    cases hf : fetch_subtask_details jt s σ with
    | mk er σ' =>
      rw [hf] at hx
      cases er with
      | error e => simp at hx
      | ok d =>
        simp only at hx
        cases hr : fetch_all_subtasks jt rest σ' with
        | mk er₂ σ'' =>
          rw [hr] at hx
          cases er₂ with
          | error e => simp at hx
          | ok ds =>
            simp only [M.run_pure, Prod.mk.injEq, Except.ok.injEq] at hx
            obtain ⟨h1, h2⟩ := hx
            subst h1
            subst h2
            simp only [List.append_eq]
            rw [ih σ' ds hr]
            simp [M.run_pure]

/-- Formatting the standard issue with a non-empty record list renders
the header, the subtasks banner, and the records in order. -/
theorem format_stdIssue (ik : String) (subs : List Json)
    (records : List Json) (body : String)
    (hb : render_subtask_list records = .ok body) (hne : records ≠ []) :
    format_jira_issue_output (stdIssue ik subs) records =
      .ok (issueHeaderStd ik ++ "\nChild Stories/Subtasks:\n" ++ body) := by
  cases records with
  | nil => exact absurd rfl hne
  | cons r rest =>
    unfold format_jira_issue_output
    simp only [pySubscript, stdIssue, List.lookup, except_bind_ok]
    simp [hb, except_bind_ok, issueHeaderStd, Json.pyStr, noDescription]

/-- Pointwise successful sub-issue fetches compose into one successful
sequential pass producing exactly one record per sub-issue, in order. -/
theorem fetch_all_subtasks_pointwise (jt : String → Option Json)
    (recOf : Json → Json) (xs : List Json)
    (h : ∀ s ∈ xs, ∀ σ, ∃ reqs,
      fetch_subtask_details jt s σ = (.ok (recOf s), σ ++ reqs)) :
    ∀ σ, ∃ reqs,
      fetch_all_subtasks jt xs σ = (.ok (xs.map recOf), σ ++ reqs) := by
  induction xs with
  | nil =>
    intro σ
    exact ⟨[], by simp [fetch_all_subtasks, M.run_pure]⟩
  | cons s rest ih =>
    intro σ
    obtain ⟨r1, h1⟩ := h s (by simp) σ
    obtain ⟨r2, h2⟩ := ih (fun x hx σ => h x (by simp [hx]) σ) (σ ++ r1)
    refine ⟨r1 ++ r2, ?_⟩
    simp only [fetch_all_subtasks, M.run_bind, h1, h2, M.run_pure,
      List.map_cons]
    simp

/-- C8.  First conjunct: a sub-issue reference whose fetch fails always
yields a record — the error marker carrying the key and the text
`"Unable to fetch subtask details"` — never an empty result.  Second
conjunct: end to end, when the issue's declared sub-issue list is
`l1 ++ [failing] ++ l2` and every other sub-issue fetch produces a
record that renders, the report contains one sub-section per sub-issue
in declared order: the sections of `l1`, then the failing sub-issue's
error line (not omitted), then the sections of `l2` — the one failure
loses nothing. -/
theorem subtask_failure_isolated (jt : String → Option Json)
    (ik k : String) (l1 l2 : List Json)
    (recOf : Json → Json) (txtOf : Json → String)
    (hj : jt ("/rest/api/3/issue/" ++ ik) =
      some (.obj [("fields", .obj [("subtasks",
        .arr (l1 ++ .obj [("key", .str k)] :: l2))])]))
    (hk : k ≠ "")
    (hfail : jt ("/rest/api/3/issue/" ++ k) = none)
    (hfetch : ∀ s ∈ l1 ++ l2, ∀ σ, ∃ reqs,
      fetch_subtask_details jt s σ = (.ok (recOf s), σ ++ reqs))
    (hrender : ∀ s ∈ l1 ++ l2, render_subtask (recOf s) = .ok (txtOf s)) :
    (∀ σ, fetch_subtask_details jt (.obj [("key", .str k)]) σ =
      (.ok (errRec (.str k)), σ ++ [jiraIssueReq k])) ∧
    (get_jira_ticket jt ik).1 = .ok (issueHeaderStd ik ++
      "\nChild Stories/Subtasks:\n" ++
      (concatStrs (l1.map txtOf) ++
        (("\n  - " ++ k ++ ": " ++ "Unable to fetch subtask details" ++
          "\n") ++ concatStrs (l2.map txtOf)))) := by
  have hbadfetch : ∀ σ, fetch_subtask_details jt (.obj [("key", .str k)]) σ =
      (.ok (errRec (.str k)), σ ++ [jiraIssueReq k]) :=
    fun σ => fetch_subtask_details_fail jt [("key", .str k)] k rfl hk hfail σ
  refine ⟨hbadfetch, ?_⟩
  have h1 : ∀ s ∈ l1, ∀ σ, ∃ reqs,
      fetch_subtask_details jt s σ = (.ok (recOf s), σ ++ reqs) :=
    fun s hs σ => hfetch s (by simp [hs]) σ
  have h2 : ∀ s ∈ l2, ∀ σ, ∃ reqs,
      fetch_subtask_details jt s σ = (.ok (recOf s), σ ++ reqs) :=
    fun s hs σ => hfetch s (by simp [hs]) σ
  obtain ⟨r1, hl1⟩ :=
    fetch_all_subtasks_pointwise jt recOf l1 h1 [jiraIssueReq ik]
  obtain ⟨r2, hl2⟩ := fetch_all_subtasks_pointwise jt recOf l2 h2
    (([jiraIssueReq ik] ++ r1) ++ [jiraIssueReq k])
  have hmid : fetch_all_subtasks jt (.obj [("key", .str k)] :: l2)
      ([jiraIssueReq ik] ++ r1) =
      (.ok (errRec (.str k) :: l2.map recOf),
        ((([jiraIssueReq ik] ++ r1) ++ [jiraIssueReq k]) ++ r2)) := by
    simp only [fetch_all_subtasks, M.run_bind, hbadfetch, hl2, M.run_pure]
  have happ := fetch_all_subtasks_append jt l1 (.obj [("key", .str k)] :: l2)
    [jiraIssueReq ik] _ _ _ _ hl1 hmid
  have hr1 := render_subtask_list_map recOf txtOf l1
    (fun s hs => hrender s (by simp [hs]))
  have hr2 := render_subtask_list_map recOf txtOf l2
    (fun s hs => hrender s (by simp [hs]))
  have hrmid : render_subtask_list (errRec (.str k) :: l2.map recOf) =
      .ok (("\n  - " ++ k ++ ": " ++ "Unable to fetch subtask details" ++
        "\n") ++ concatStrs (l2.map txtOf)) := by
    simp only [render_subtask_list, render_subtask_errRec, hr2,
      except_bind_ok]
  have hrall := render_subtask_list_append (l1.map recOf)
    (errRec (.str k) :: l2.map recOf) _ _ hr1 hrmid
  have hform := format_stdIssue ik
    (l1 ++ .obj [("key", .str k)] :: l2)
    (l1.map recOf ++ errRec (.str k) :: l2.map recOf) _ hrall (by simp)
  have hrun : get_jira_ticket jt ik = (.ok (issueHeaderStd ik ++
      "\nChild Stories/Subtasks:\n" ++
      (concatStrs (l1.map txtOf) ++
        (("\n  - " ++ k ++ ": " ++ "Unable to fetch subtask details" ++
          "\n") ++ concatStrs (l2.map txtOf)))),
      [jiraIssueReq ik] ++ r1 ++ [jiraIssueReq k] ++ r2) := by
    unfold get_jira_ticket
    simp only [M.run_bind,
      fetch_jira_issue_details_std jt ik (l1 ++ .obj [("key", .str k)] :: l2)
        hj []]
    simp only [List.nil_append] at happ ⊢
    simp [stdIssue, Json.falsy, pyGetD, pyIter, List.lookup, M.run_lift,
      M.run_bind, happ, hform]
    exact hform
  rw [hrun]

/-- Witness: for ABC-2 the failing sub-issue ABC-3 still yields the
error-marker record, and the report contains ABC-4's full section
followed by ABC-3's error line. -/
theorem subtask_failure_isolated_witness :
    fetch_subtask_details jtW8 (.obj [("key", .str "ABC-3")]) [] =
      (.ok (errRec (.str "ABC-3")), [jiraIssueReq "ABC-3"]) ∧
    (get_jira_ticket jtW8 "ABC-2").1 = .ok (issueHeaderStd "ABC-2" ++
      "\nChild Stories/Subtasks:\n" ++
      (concatStrs ([subRefGood].map (fun _ => subTxtGood)) ++
        (("\n  - " ++ "ABC-3" ++ ": " ++ "Unable to fetch subtask details" ++
          "\n") ++ concatStrs (([] : List Json).map (fun _ => subTxtGood))))) :=
  have h := subtask_failure_isolated jtW8 "ABC-2" "ABC-3" [subRefGood] []
    (fun _ => subRecGood) (fun _ => subTxtGood)
    (by rfl) (by decide) (by rfl)
    (by
      intro s hs σ
      simp at hs
      subst hs
      exact ⟨[jiraIssueReq "ABC-4"], rfl⟩)
    (by
      intro s hs
      simp at hs
      subst hs
      rfl)
  ⟨h.1 [], h.2⟩
